import Mathlib

/-!
# Verification of the Smart Meeting Assistant scheduling engine

Shallow embedding of `src/smart-meeting-assistant-MCP/src/scheduler.py`
(class `SchedulingEngine`) together with the repository lookup it consumes
(`MeetingService.get_user_meetings_in_range` in `src/database.py`).

Modelling conventions:

* Timestamps are minutes since a reference epoch that falls on a
  **Monday 00:00**, represented as `Int`.  Python's `datetime`/`pendulum`
  arithmetic at minute granularity is exactly mirrored: `weekday()` is
  `(t / 1440) % 7` (Monday = 0), `.hour` is `(t % 1440) / 60`,
  `.at(h, m)` is `(t / 1440) * 1440 + h*60 + m`,
  `.next(pendulum.MONDAY)` is `nextMondayStart` (next strictly-later Monday,
  at 00:00).  Lean's `Int` division/modulo by a positive literal agree with
  Python's floor division/modulo.
* Scores are IEEE doubles in Python but every value the scorer produces is an
  integer of small magnitude (sums of ±5..±30 around 100), on which double
  arithmetic is exact, so scores are embedded as `Int`.
  `get_meeting_density`'s `density_score` is a genuine ratio and is embedded
  as `ℚ`; all bucket boundaries (25, 50, 75, corresponding to totals 120,
  240, 360 of 480) are exactly representable doubles and the float rounding
  error of `total/480*100` (≲1e-13 relative) is far below the distance from
  any other integer total to a boundary, so bucket selection over `ℚ`
  coincides with the Python float computation.
* The meeting repository is embedded as the list of all meeting rows
  (`Database`); `get_user_meetings_in_range` filters it exactly as the two
  SQL queries in `database.py` do (user is organizer or participant, and
  `start <= start_time <= end`), deduplicates, and sorts by `start_time`.
* The day-advance expression on line 205 of `scheduler.py`,
  `current.next(pendulum.MONDAY if current.weekday() == 4 else current.add(days=1))`,
  passes a `DateTime` (not a weekday constant) to `pendulum`'s `next()`
  whenever the current day is Monday..Thursday; `next()` then evaluates
  `day_of_week < MONDAY` on a `DateTime` and an integer constant, which
  raises `TypeError`.  Fallible code is embedded with `Except`, and this
  raise is `.error ()`.
-/

namespace MeetingAssistant

/-! ## Time model -/

/-- Python `datetime.weekday()`: Monday = 0 .. Sunday = 6.
The epoch (minute 0) is a Monday 00:00. -/
def weekdayOf (t : Int) : Int := (t / 1440) % 7

/-- Python `.hour` of a minute-granularity timestamp. -/
def hourOf (t : Int) : Int := (t % 1440) / 60

/-- Pendulum `.start_of('day')`. -/
def dayStartOf (t : Int) : Int := (t / 1440) * 1440

/-- Pendulum `.at(hour, minute)`: same day, given time of day. -/
def atTime (t : Int) (h m : Nat) : Int := (t / 1440) * 1440 + h * 60 + m

/-- Pendulum `.next(pendulum.MONDAY)`: the next strictly-later Monday at
00:00 (pendulum resets the time to midnight when `keep_time` is false). -/
def nextMondayStart (t : Int) : Int :=
  (t / 1440 + (if (t / 1440) % 7 = 0 then 7 else 7 - (t / 1440) % 7)) * 1440

/-! ## Data model (`models.py`, `scheduler.py` dataclasses) -/

/-- A meeting row (`models.py`, class `Meeting`); only the fields the
scheduling engine reads. `duration_minutes` is the stored field, as read by
`get_meeting_density`. -/
structure Meeting where
  id : String
  title : String
  start_time : Int
  end_time : Int
  duration_minutes : Int
  organizer_id : String
  participants : List String
deriving Repr, DecidableEq

/-- `scheduler.py`, dataclass `ConflictDetails`. `conflict_type` is one of
the literal strings `"overlap"`, `"back_to_back"`, `"buffer_violation"`. -/
structure ConflictDetails where
  meeting_id : String
  title : String
  start_time : Int
  end_time : Int
  participants : List String
  conflict_type : String
deriving Repr, DecidableEq

/-- `models.py`, class `SchedulingPreferences`.  The `"HH:MM"` strings
`preferred_start_time`/`preferred_end_time` are embedded already parsed into
hour/minute numbers (the engine parses them with `split(':')` + `int`);
defaults are `"09:00"` and `"17:00"`.  The remaining preference fields are
never read by the scheduling engine and are omitted. -/
structure SchedulingPreferences where
  preferred_start_hour : Nat := 9
  preferred_start_minute : Nat := 0
  preferred_end_hour : Nat := 17
  preferred_end_minute : Nat := 0
deriving Repr, DecidableEq

/-- A preferences record whose parsed `"HH:MM"` fields denote a valid time
of day (pendulum's `.at` rejects anything else with a `ValueError`). -/
def ValidPrefs (p : SchedulingPreferences) : Prop :=
  p.preferred_start_hour < 24 ∧ p.preferred_start_minute < 60 ∧
    p.preferred_end_hour < 24 ∧ p.preferred_end_minute < 60

instance (p : SchedulingPreferences) : Decidable (ValidPrefs p) := by
  unfold ValidPrefs; infer_instance

/-- `scheduler.py`, dataclass `TimeSlot` (the generator only ever fills the
two time fields; score and participant lists keep their defaults until the
scorer, which returns a separate dict instead of mutating the slot). -/
structure TimeSlot where
  start_time : Int
  end_time : Int
deriving Repr, DecidableEq

/-- `models.py`, class `OptimalSlotResponse`. -/
structure OptimalSlotResponse where
  start_time : Int
  end_time : Int
  score : Int
  participants_available : List String
  participants_conflicts : List String
  reasoning : String
deriving Repr, DecidableEq

/-- Result dict of `_score_time_slot`. -/
structure ScoreInfo where
  score : Int
  available : List String
  conflicted : List String
  reasoning : String
deriving Repr, DecidableEq

/-! ## Repository (`database.py`) -/

/-- The meeting repository: the full list of meeting rows. -/
abbrev Database := List Meeting

/-- `MeetingService.get_user_meetings_in_range` (`database.py` lines
214-235): meetings where the user is organizer or participant, with
`start_date <= start_time <= end_date` (SQL `>=`/`<=`), deduplicated and
sorted by `start_time` (Python's stable `sorted`). -/
def get_user_meetings_in_range (db : Database) (uid : String) (s e : Int) :
    List Meeting :=
  (db.filter (fun m =>
      (m.organizer_id == uid || m.participants.contains uid) &&
        decide (s ≤ m.start_time) && decide (m.start_time ≤ e))).mergeSort
    (fun a b => a.start_time ≤ b.start_time)

/-! ## Conflict detection (`scheduler.py` lines 54-117, 293-311) -/

/-- `SchedulingEngine._times_overlap`. -/
def _times_overlap (s1 e1 s2 e2 : Int) : Prop := s1 < e2 ∧ s2 < e1

instance (s1 e1 s2 e2 : Int) : Decidable (_times_overlap s1 e1 s2 e2) := by
  unfold _times_overlap; infer_instance

/-- `SchedulingEngine._is_back_to_back`. -/
def _is_back_to_back (s1 e1 s2 e2 : Int) : Prop := e1 = s2 ∨ e2 = s1

instance (s1 e1 s2 e2 : Int) : Decidable (_is_back_to_back s1 e1 s2 e2) := by
  unfold _is_back_to_back; infer_instance

/-- `SchedulingEngine._violates_buffer` (default `minutes=15`). -/
def _violates_buffer (s1 e1 s2 e2 : Int) (minutes : Int) : Prop :=
  if e1 ≤ s2 then s2 - e1 < minutes
  else if e2 ≤ s1 then s1 - e2 < minutes
  else False

instance (s1 e1 s2 e2 m : Int) : Decidable (_violates_buffer s1 e1 s2 e2 m) := by
  unfold _violates_buffer; infer_instance

/-- The `if`/`elif`/`elif` classification body of the `for meeting in
existing_meetings` loop in `detect_conflicts`: at most one
`ConflictDetails` per existing meeting, first match wins. -/
def classify_conflict (target_start target_end : Int) (m : Meeting) :
    Option ConflictDetails :=
  if _times_overlap target_start target_end m.start_time m.end_time then
    some ⟨m.id, m.title, m.start_time, m.end_time, m.participants, "overlap"⟩
  else if _is_back_to_back target_start target_end m.start_time m.end_time then
    some ⟨m.id, m.title, m.start_time, m.end_time, m.participants,
      "back_to_back"⟩
  else if _violates_buffer target_start target_end m.start_time m.end_time 15 then
    some ⟨m.id, m.title, m.start_time, m.end_time, m.participants,
      "buffer_violation"⟩
  else none

/-- `SchedulingEngine.detect_conflicts`: fetch the user's meetings in the
extended window (±2 hours) and classify each. -/
def detect_conflicts (db : Database) (uid : String) (start_time end_time : Int) :
    List ConflictDetails :=
  (get_user_meetings_in_range db uid (start_time - 120) (end_time + 120)).filterMap
    (classify_conflict start_time end_time)

/-! ## Meeting density (`scheduler.py` lines 313-362) -/

/-- Result dict of `get_meeting_density`. -/
structure DensityInfo where
  total_meetings : Nat
  total_meeting_time : Int
  free_time : Int
  density_score : ℚ
  recommendation : String
deriving Repr, DecidableEq

/-- `SchedulingEngine.get_meeting_density`.  The fetch window is the whole
calendar day of `date` (`start_of('day')` to `end_of('day')`; at minute
granularity the inclusive SQL upper bound is the day's last minute). -/
def get_meeting_density (db : Database) (uid : String) (date : Int) :
    DensityInfo :=
  let meetings := get_user_meetings_in_range db uid (dayStartOf date)
    (dayStartOf date + 1439)
  if meetings.isEmpty then
    { total_meetings := 0
      total_meeting_time := 0
      free_time := 480
      density_score := 0
      recommendation := "Good day to schedule meetings" }
  else
    let total : Int := (meetings.map (·.duration_minutes)).sum
    let free_time : Int := 480 - total
    let density_score : ℚ := (total : ℚ) / 480 * 100
    { total_meetings := meetings.length
      total_meeting_time := total
      free_time := free_time
      density_score := density_score
      recommendation :=
        if density_score < 25 then "Light meeting day - good for scheduling"
        else if density_score < 50 then
          "Moderate meeting load - schedule with care"
        else if density_score < 75 then
          "Heavy meeting day - avoid non-essential meetings"
        else "Overloaded day - consider rescheduling" }

/-! ## Slot generation (`scheduler.py` lines 165-207) -/

/-- The inner `while slot_start + timedelta(minutes=duration_minutes) <=
day_end` loop of `_generate_time_slots`: emit a slot, step 30 minutes. -/
def generate_day_slots (slot_start day_end duration : Int) : List TimeSlot :=
  if h : slot_start + duration ≤ day_end then
    ⟨slot_start, slot_start + duration⟩ ::
      generate_day_slots (slot_start + 30) day_end duration
  else []
termination_by (day_end - duration + 30 - slot_start).toNat
decreasing_by omega

theorem lt_nextMondayStart (t : Int) : t < nextMondayStart t := by
  unfold nextMondayStart
  split <;> omega

theorem nextMondayStart_emod (t : Int) : nextMondayStart t % 1440 = 0 := by
  unfold nextMondayStart
  split <;> omega

/-- The `while current < end` loop of `_generate_time_slots`.  Weekend days
are skipped to the next Monday at the preferred start time (line 184); a
working day's slots are generated and then the day is advanced (line 205):
a Friday jumps to the next Monday at midnight, while on Monday..Thursday
the day-advance expression hands a `DateTime` to pendulum's `.next()`,
which raises `TypeError` — embedded as `.error ()`, discarding the
accumulated slots exactly as the propagating Python exception does. -/
def generate_slots_loop (endT : Int) (psh psm peh pem : Nat) (duration : Int)
    (current : Int) : Except Unit (List TimeSlot) :=
  if _h : current < endT then
    if _hw : 5 ≤ weekdayOf current then
      generate_slots_loop endT psh psm peh pem duration
        (atTime (nextMondayStart current) psh psm)
    else
      let day_start := atTime current psh psm
      let day_end := atTime current peh pem
      let day_slots := generate_day_slots day_start day_end duration
      if weekdayOf current = 4 then
        (generate_slots_loop endT psh psm peh pem duration
          (nextMondayStart current)).map (day_slots ++ ·)
      else
        .error ()
  else
    .ok []
termination_by (endT - current).toNat
decreasing_by
  · have h1 := lt_nextMondayStart current
    have h2 := nextMondayStart_emod current
    unfold atTime
    omega
  · have h1 := lt_nextMondayStart current
    omega

/-- `SchedulingEngine._generate_time_slots`. -/
def _generate_time_slots (start_date end_date duration_minutes : Int)
    (preferences : SchedulingPreferences) : Except Unit (List TimeSlot) :=
  generate_slots_loop end_date preferences.preferred_start_hour
    preferences.preferred_start_minute preferences.preferred_end_hour
    preferences.preferred_end_minute duration_minutes start_date

/-! ## Slot scoring (`scheduler.py` lines 209-291) -/

/-- One iteration of the `for participant_id in participants` loop of
`_score_time_slot`; the accumulator carries (score, available, conflicted,
reasoning parts). -/
def score_participant_step (db : Database) (slot : TimeSlot)
    (acc : Int × List String × List String × List String) (pid : String) :
    Int × List String × List String × List String :=
  let conflicts := detect_conflicts db pid slot.start_time slot.end_time
  if conflicts.length > 0 then
    (acc.1 - 30 * conflicts.length, acc.2.1, acc.2.2.1 ++ [pid],
      acc.2.2.2 ++
        ["Conflicts for " ++ pid ++ ": " ++ toString conflicts.length])
  else
    (acc.1, acc.2.1 ++ [pid], acc.2.2.1, acc.2.2.2)

/-- `SchedulingEngine._score_time_slot`.  (Its `preferences` parameter is
never read by the Python body and is omitted here.) -/
def _score_time_slot (db : Database) (slot : TimeSlot)
    (participants : List String) : ScoreInfo :=
  let r := participants.foldl (score_participant_step db slot) (100, [], [], [])
  let score0 := r.1
  let available := r.2.1
  let conflicted := r.2.2.1
  let reasons0 := r.2.2.2
  let (score1, reasons1) :=
    if available.length = participants.length then
      (score0 + 20, reasons0 ++ ["All participants available"])
    else (score0, reasons0)
  let hour := hourOf slot.start_time
  let (score2, reasons2) :=
    if 9 ≤ hour ∧ hour ≤ 11 then (score1 + 15, reasons1 ++ ["Good morning time"])
    else if 13 ≤ hour ∧ hour ≤ 14 then
      (score1 - 10, reasons1 ++ ["Lunch time penalty"])
    else if 16 ≤ hour ∧ hour ≤ 17 then
      (score1 - 5, reasons1 ++ ["Late afternoon"])
    else if hour < 8 ∨ 18 < hour then
      (score1 - 25, reasons1 ++ ["Outside normal hours"])
    else (score1, reasons1)
  let wd := weekdayOf slot.start_time
  let (score3, reasons3) :=
    if wd = 0 then (score2 + 5, reasons2 ++ ["Monday energy"])
    else if wd = 4 then (score2 - 5, reasons2 ++ ["Friday afternoon"])
    else (score2, reasons2)
  let (score4, reasons4) :=
    if 2 ≤ hourOf slot.end_time - hourOf slot.start_time then
      (score3 - 10, reasons3 ++ ["Long meeting"])
    else (score3, reasons3)
  { score := max 0 score4
    available := available
    conflicted := conflicted
    reasoning :=
      if reasons4.isEmpty then "Standard slot"
      else String.intercalate "; " reasons4 }

/-! ## Optimal slot selection (`scheduler.py` lines 119-163) -/

/-- The scoring/filtering loop of `find_optimal_slots`: score each generated
slot in generation order and keep those with score > 0. -/
def viable_scored_slots (db : Database) (participants : List String)
    (slots : List TimeSlot) : List OptimalSlotResponse :=
  slots.filterMap (fun slot =>
    let info := _score_time_slot db slot participants
    if 0 < info.score then
      some ⟨slot.start_time, slot.end_time, info.score, info.available,
        info.conflicted, info.reasoning⟩
    else none)

/-- The final ranking of `find_optimal_slots`: Python's stable
`list.sort(key=lambda x: x.score, reverse=True)` (descending by score,
ties keep list order) is `mergeSort` with `b.score ≤ a.score`. -/
def ranked_slots (db : Database) (participants : List String)
    (slots : List TimeSlot) : List OptimalSlotResponse :=
  (viable_scored_slots db participants slots).mergeSort
    (fun a b => b.score ≤ a.score)

/-- `SchedulingEngine.find_optimal_slots` (a `TypeError` escaping the
generator propagates). -/
def find_optimal_slots (db : Database) (participants : List String)
    (duration_minutes date_range_start date_range_end : Int)
    (preferences : Option SchedulingPreferences) :
    Except Unit (List OptimalSlotResponse) :=
  let prefs := preferences.getD {}
  (_generate_time_slots date_range_start date_range_end duration_minutes
    prefs).map (fun potential_slots =>
      (ranked_slots db participants potential_slots).take 10)

/-! ## Alternative suggestions (`scheduler.py` lines 364-395) -/

/-- `SchedulingEngine.suggest_meeting_alternatives`. -/
def suggest_meeting_alternatives (db : Database) (original_start : Int)
    (duration_minutes : Int) (participants : List String) :
    Except Unit (List OptimalSlotResponse) :=
  let search_start := original_start
  let search_end := original_start + 7 * 1440
  (find_optimal_slots db participants duration_minutes search_start search_end
    none).map (fun alternatives =>
      let original_end := original_start + duration_minutes
      (alternatives.filter (fun alt =>
        !(decide (alt.start_time ≤ original_start ∧
            original_start < alt.end_time) ||
          decide (alt.start_time < original_end ∧
            original_end ≤ alt.end_time)))).take 5)

/-! ## Helper lemmas about the slot generator -/

/-- Every slot emitted by the inner day loop starts no earlier than the
first candidate, lasts exactly `duration` minutes, and ends by `day_end`. -/
theorem mem_generate_day_slots : ∀ (s de dur : Int) (slot : TimeSlot),
    slot ∈ generate_day_slots s de dur →
    s ≤ slot.start_time ∧ slot.end_time = slot.start_time + dur ∧
      slot.start_time + dur ≤ de := by
  intro s de dur
  induction s, de, dur using generate_day_slots.induct with
  | case1 s de dur h ih =>
    intro slot hm
    rw [generate_day_slots, dif_pos h] at hm
    rcases List.mem_cons.mp hm with rfl | hm
    · exact ⟨le_refl _, rfl, h⟩
    · have := ih slot hm
      omega
  | case2 s de dur h =>
    intro slot hm
    rw [generate_day_slots, dif_neg h] at hm
    simp at hm

/-- Any slot list the day loop of `_generate_time_slots` manages to return
consists of weekday slots ending by their own day's preferred end time. -/
theorem mem_generate_slots_loop (endT : Int) (psh psm peh pem : Nat)
    (dur cur : Int) (hpsh : psh < 24) (hpsm : psm < 60) (hpeh : peh < 24)
    (hpem : pem < 60) (hdur : 0 ≤ dur) :
    ∀ (slots : List TimeSlot),
    generate_slots_loop endT psh psm peh pem dur cur = .ok slots →
    ∀ slot ∈ slots, weekdayOf slot.start_time < 5 ∧
      slot.end_time ≤ atTime slot.start_time peh pem := by
  induction cur using generate_slots_loop.induct endT psh psm peh pem dur with
  | case1 cur h hw ih =>
    intro slots hok
    rw [generate_slots_loop, dif_pos h, dif_pos hw] at hok
    exact ih slots hok
  | case2 cur h hw h4 ih =>
    intro slots hok
    rw [generate_slots_loop, dif_pos h, dif_neg hw, if_pos h4] at hok
    cases hrec : generate_slots_loop endT psh psm peh pem dur
        (nextMondayStart cur) with
    | error e => rw [hrec] at hok; simp [Except.map] at hok
    | ok rest =>
      rw [hrec] at hok
      simp only [Except.map, Except.ok.injEq] at hok
      intro slot hmem
      rw [← hok] at hmem
      rcases List.mem_append.mp hmem with hd | hr
      · have hds := mem_generate_day_slots _ _ _ _ hd
        have h4' : (cur / 1440) % 7 = 4 := h4
        constructor
        · simp only [weekdayOf, atTime] at *
          omega
        · simp only [weekdayOf, atTime] at *
          omega
      · exact ih rest hrec slot hr
  | case3 cur h hw h4 =>
    intro slots hok
    rw [generate_slots_loop, dif_pos h, dif_neg hw, if_neg h4] at hok
    simp at hok
  | case4 cur h =>
    intro slots hok
    rw [generate_slots_loop, dif_neg h] at hok
    simp only [Except.ok.injEq] at hok
    rw [← hok]
    intro slot hmem
    simp at hmem

/-!
## C2 — day-by-day generation (code bug)

The spec says `_generate_time_slots` visits each working day of the window
in turn.  The code's move-to-next-day expression (line 205)

  `current = current.next(pendulum.MONDAY if current.weekday() == 4
                          else current.add(days=1))`

passes a `DateTime` to pendulum's `next()` whenever the finished day is
Monday..Thursday, and `next()` then raises `TypeError`.  So any window
whose first processed working day is Monday..Thursday raises instead of
returning slots.
-/

/-- C2: failing input.  Window = Monday 00:00 (epoch) to Wednesday 00:00,
60-minute meetings, default preferences: the spec requires the Monday and
Tuesday slots in ascending order, but the code raises `TypeError` while
moving from Monday to Tuesday. -/
theorem C2_generator_raises_on_weekday_advance :
    _generate_time_slots 0 2880 60 {} = .error () := by
  rw [_generate_time_slots, generate_slots_loop]
  norm_num [weekdayOf]

/-!
## C3 — returned slots avoid weekends and respect the day's end time
-/

/-- C3: whenever `_generate_time_slots` returns a slot list (it raises on
many windows, see C2), no returned slot starts on Saturday (weekday 5) or
Sunday (weekday 6), and every returned slot ends no later than its own
day's preferred end time.  Durations are nonnegative (the spec rules a
negative duration a caller error) and the preference times are valid
`"HH:MM"` times of day (pendulum rejects others). -/
theorem C3_no_weekend_and_end_bounded (start_date end_date dur : Int)
    (p : SchedulingPreferences) (slots : List TimeSlot)
    (hv : ValidPrefs p) (hdur : 0 ≤ dur)
    (hok : _generate_time_slots start_date end_date dur p = .ok slots) :
    ∀ slot ∈ slots, weekdayOf slot.start_time < 5 ∧
      slot.end_time ≤ atTime slot.start_time p.preferred_end_hour
        p.preferred_end_minute := by
  obtain ⟨h1, h2, h3, h4⟩ := hv
  exact mem_generate_slots_loop end_date _ _ _ _ dur start_date h1 h2 h3 h4
    hdur slots hok

/-- C3 witness: the window Friday 00:00–00:01 (epoch day 4) with a
480-minute duration and default preferences returns exactly the slot
09:00–17:00 of that Friday, which satisfies both bounds. -/
theorem C3_no_weekend_and_end_bounded_witness :
    (ValidPrefs ({} : SchedulingPreferences) ∧ (0 : Int) ≤ 480 ∧
      _generate_time_slots 5760 5761 480 {} = .ok [⟨6300, 6780⟩]) ∧
    (∀ slot ∈ ([⟨6300, 6780⟩] : List TimeSlot),
      weekdayOf slot.start_time < 5 ∧
        slot.end_time ≤ atTime slot.start_time
          ({} : SchedulingPreferences).preferred_end_hour
          ({} : SchedulingPreferences).preferred_end_minute) := by
  have hok : _generate_time_slots 5760 5761 480 {} = .ok [⟨6300, 6780⟩] := by
    rw [_generate_time_slots, generate_slots_loop]
    norm_num [weekdayOf, atTime, nextMondayStart]
    rw [generate_slots_loop]
    norm_num
    rw [generate_day_slots]
    norm_num
    rw [generate_day_slots]
    norm_num [Except.map]
  exact ⟨⟨by decide, by norm_num, hok⟩,
    C3_no_weekend_and_end_bounded 5760 5761 480 {} [⟨6300, 6780⟩] (by decide)
      (by norm_num) hok⟩

/-! ## Helper lemmas about conflict classification -/

/-- Each produced conflict record carries the id of the meeting it was
classified from. -/
theorem classify_conflict_meeting_id {ts te : Int} {m : Meeting}
    {c : ConflictDetails} (h : classify_conflict ts te m = some c) :
    c.meeting_id = m.id := by
  unfold classify_conflict at h
  repeat' split at h
  all_goals simp_all
  all_goals rw [← h]

/-- Per-meeting single-record bound: among the conflict records produced by
the classification loop, those naming a given meeting id are no more
numerous than the fetched meetings bearing that id. -/
theorem classify_records_per_meeting (ts te : Int) (mid : String) :
    ∀ l : List Meeting,
      ((l.filterMap (classify_conflict ts te)).filter
        (fun c => c.meeting_id == mid)).length ≤
      (l.filter (fun m => m.id == mid)).length := by
  intro l
  induction l with
  | nil => simp
  | cons m rest ih =>
    cases hc : classify_conflict ts te m with
    | none =>
      simp only [List.filterMap_cons, hc, List.filter_cons]
      split
      · simp only [List.length_cons]
        omega
      · exact ih
    | some c =>
      have hid : c.meeting_id = m.id := classify_conflict_meeting_id hc
      simp only [List.filterMap_cons, hc, List.filter_cons, hid]
      by_cases hm : (m.id == mid) = true
      · rw [if_pos hm, if_pos hm]
        simp only [List.length_cons]
        omega
      · rw [if_neg hm, if_neg hm]
        exact ih

/-!
## C4 — the four conflict-detection scenarios
-/

/-- C4: with exactly one existing meeting `[b, b+30)` for participant `P`,
`detect_conflicts` classifies the proposed ranges `[b+15, b+45)` as one
`overlap` record, `[b+30, b+60)` as one `back_to_back` record, `[b+35,
b+65)` (10-minute gap < 15-minute buffer) as one `buffer_violation`
record, and `[b+60, b+90)` (30-minute gap) as no conflict at all. -/
theorem C4_conflict_scenarios (b : Int) (m : Meeting) (P : String)
    (hs : m.start_time = b) (he : m.end_time = b + 30)
    (hP : m.organizer_id = P ∨ P ∈ m.participants) :
    detect_conflicts [m] P (b + 15) (b + 45) =
      [⟨m.id, m.title, b, b + 30, m.participants, "overlap"⟩] ∧
    detect_conflicts [m] P (b + 30) (b + 60) =
      [⟨m.id, m.title, b, b + 30, m.participants, "back_to_back"⟩] ∧
    detect_conflicts [m] P (b + 35) (b + 65) =
      [⟨m.id, m.title, b, b + 30, m.participants, "buffer_violation"⟩] ∧
    detect_conflicts [m] P (b + 60) (b + 90) = [] := by
  have hmem : ((m.organizer_id == P) || m.participants.contains P) = true := by
    simpa using hP
  refine ⟨?_, ?_, ?_, ?_⟩ <;>
    simp only [detect_conflicts, get_user_meetings_in_range,
      List.filter_cons, List.filter_nil, hmem, Bool.true_and] <;>
    rw [if_pos (by simp; omega)] <;>
    simp only [List.mergeSort_singleton, List.filterMap_cons,
      List.filterMap_nil, classify_conflict, hs, he]
  · rw [if_pos (by unfold _times_overlap; omega)]
  · rw [if_neg (by unfold _times_overlap; omega),
      if_pos (by unfold _is_back_to_back; omega)]
  · rw [if_neg (by unfold _times_overlap; omega),
      if_neg (by unfold _is_back_to_back; omega),
      if_pos (by
        unfold _violates_buffer
        rw [if_neg (by omega : ¬(b + 65 ≤ b)), if_pos (by omega : b + 30 ≤ b + 35)]
        omega)]
  · rw [if_neg (by unfold _times_overlap; omega),
      if_neg (by unfold _is_back_to_back; omega),
      if_neg (by
        unfold _violates_buffer
        rw [if_neg (by omega : ¬(b + 90 ≤ b)), if_pos (by omega : b + 30 ≤ b + 60)]
        omega)]

/-- C4 witness: the scenario instantiated at 09:00–09:30 of the epoch
Monday (minute 540) for participant `"P"`. -/
theorem C4_conflict_scenarios_witness :
    ((⟨"m1", "Standup", 540, 570, 30, "P", ["P"]⟩ : Meeting).start_time = 540 ∧
      (⟨"m1", "Standup", 540, 570, 30, "P", ["P"]⟩ : Meeting).end_time =
        540 + 30 ∧
      ((⟨"m1", "Standup", 540, 570, 30, "P", ["P"]⟩ : Meeting).organizer_id =
        "P" ∨ "P" ∈ (⟨"m1", "Standup", 540, 570, 30, "P", ["P"]⟩ :
          Meeting).participants)) ∧
    (detect_conflicts [⟨"m1", "Standup", 540, 570, 30, "P", ["P"]⟩] "P"
        (540 + 15) (540 + 45) =
      [⟨"m1", "Standup", 540, 540 + 30, ["P"], "overlap"⟩] ∧
    detect_conflicts [⟨"m1", "Standup", 540, 570, 30, "P", ["P"]⟩] "P"
        (540 + 30) (540 + 60) =
      [⟨"m1", "Standup", 540, 540 + 30, ["P"], "back_to_back"⟩] ∧
    detect_conflicts [⟨"m1", "Standup", 540, 570, 30, "P", ["P"]⟩] "P"
        (540 + 35) (540 + 65) =
      [⟨"m1", "Standup", 540, 540 + 30, ["P"], "buffer_violation"⟩] ∧
    detect_conflicts [⟨"m1", "Standup", 540, 570, 30, "P", ["P"]⟩] "P"
        (540 + 60) (540 + 90) = []) :=
  ⟨⟨rfl, by norm_num, Or.inl rfl⟩,
    C4_conflict_scenarios 540 ⟨"m1", "Standup", 540, 570, 30, "P", ["P"]⟩ "P"
      rfl (by norm_num) (Or.inl rfl)⟩

/-!
## C5 — at most one record per meeting, first-match-wins precedence
-/

/-- C5: (i) `detect_conflicts` produces at most one conflict record per
fetched meeting carrying a given meeting id; (ii) a range pair satisfying
the overlap predicate is classified `overlap`; (iii) a pair with an exact
0-minute gap (the proposed range ends at the meeting's start or vice
versa) is classified `back_to_back` — and therefore never
`buffer_violation`, although a 0-minute gap is smaller than the 15-minute
buffer: the `elif` chain makes the kinds mutually exclusive. -/
theorem C5_single_record_first_match :
    (∀ (db : Database) (uid : String) (ts te : Int) (mid : String),
      ((detect_conflicts db uid ts te).filter
        (fun c => c.meeting_id == mid)).length ≤
      ((get_user_meetings_in_range db uid (ts - 120) (te + 120)).filter
        (fun m => m.id == mid)).length) ∧
    (∀ (ts te : Int) (m : Meeting),
      _times_overlap ts te m.start_time m.end_time →
      classify_conflict ts te m =
        some ⟨m.id, m.title, m.start_time, m.end_time, m.participants,
          "overlap"⟩) ∧
    (∀ (ts te : Int) (m : Meeting), te = m.start_time ∨ m.end_time = ts →
      classify_conflict ts te m =
        some ⟨m.id, m.title, m.start_time, m.end_time, m.participants,
          "back_to_back"⟩) := by
  refine ⟨?_, ?_, ?_⟩
  · intro db uid ts te mid
    exact classify_records_per_meeting ts te mid _
  · intro ts te m hov
    unfold classify_conflict
    rw [if_pos hov]
  · intro ts te m hgap
    have hnov : ¬ _times_overlap ts te m.start_time m.end_time := by
      unfold _times_overlap
      rcases hgap with h | h <;> omega
    unfold classify_conflict
    rw [if_neg hnov, if_pos (show _is_back_to_back ts te m.start_time
      m.end_time from hgap)]

/-- C5 witness: instantiates the overlap clause at ranges 09:15–09:45 vs
09:00–09:30 and the zero-gap clause at 09:30–10:00 vs 09:00–09:30. -/
theorem C5_single_record_first_match_witness :
    (_times_overlap 555 585 (⟨"m1", "Standup", 540, 570, 30, "P", ["P"]⟩ :
        Meeting).start_time (⟨"m1", "Standup", 540, 570, 30, "P", ["P"]⟩ :
        Meeting).end_time ∧
      classify_conflict 555 585 ⟨"m1", "Standup", 540, 570, 30, "P", ["P"]⟩ =
        some ⟨"m1", "Standup", 540, 570, ["P"], "overlap"⟩) ∧
    (((570 : Int) = (⟨"m1", "Standup", 540, 570, 30, "P", ["P"]⟩ :
        Meeting).start_time ∨ (⟨"m1", "Standup", 540, 570, 30, "P",
        ["P"]⟩ : Meeting).end_time = 570) ∧
      classify_conflict 570 600 ⟨"m1", "Standup", 540, 570, 30, "P", ["P"]⟩ =
        some ⟨"m1", "Standup", 540, 570, ["P"], "back_to_back"⟩) := by
  constructor
  · exact ⟨by decide,
      C5_single_record_first_match.2.1 555 585
        ⟨"m1", "Standup", 540, 570, 30, "P", ["P"]⟩ (by decide)⟩
  · exact ⟨Or.inr rfl,
      C5_single_record_first_match.2.2 570 600
        ⟨"m1", "Standup", 540, 570, 30, "P", ["P"]⟩ (Or.inr rfl)⟩

/-!
## C1 — density boundary at exactly 240 minutes (corrected)

The spec's claim places a density score of exactly 50 in the "moderate"
bucket ("exact boundary values belong to the lower bucket").  The code
tests `density_score < 50` with a strict comparison, so a score of exactly
50 fails the moderate test and lands in the `< 75` branch: the **heavy**
bucket.  Boundary values belong to the upper bucket.
-/

/-- One 240-minute meeting (09:00–13:00 of the epoch Monday) for
participant `"P"`: exactly half of the 480-minute working day. -/
def density_boundary_db : Database :=
  [⟨"m1", "Roadmap review", 540, 780, 240, "P", ["P"]⟩]

/-- C1 counterexample: with exactly 240 meeting minutes on the day the
density score is exactly 50, but the recommendation is **not** the
moderate bucket string — the claim as stated is false. -/
theorem C1_exact_240_not_moderate :
    (get_meeting_density density_boundary_db "P" 0).density_score = 50 ∧
    (get_meeting_density density_boundary_db "P" 0).recommendation ≠
      "Moderate meeting load - schedule with care" := by
  have h : get_meeting_density density_boundary_db "P" 0 =
      ⟨1, 240, 240, 50, "Heavy meeting day - avoid non-essential meetings"⟩ := by
    unfold get_meeting_density get_user_meetings_in_range density_boundary_db
      dayStartOf
    norm_num
  rw [h]
  exact ⟨rfl, by decide⟩

/-- C1 amended: a day whose fetched meetings total exactly 240 minutes has
`density_score = 50` and the **heavy** recommendation bucket (the strict
`<` comparisons place each boundary value in the upper bucket). -/
theorem C1_exact_240_is_heavy (db : Database) (uid : String) (date : Int)
    (h : ((get_user_meetings_in_range db uid (dayStartOf date)
      (dayStartOf date + 1439)).map (fun m => m.duration_minutes)).sum =
        240) :
    (get_meeting_density db uid date).density_score = 50 ∧
    (get_meeting_density db uid date).recommendation =
      "Heavy meeting day - avoid non-essential meetings" := by
  have hne : (get_user_meetings_in_range db uid (dayStartOf date)
      (dayStartOf date + 1439)).isEmpty = false := by
    cases hl : get_user_meetings_in_range db uid (dayStartOf date)
        (dayStartOf date + 1439) with
    | nil => rw [hl] at h; simp at h
    | cons a t => rfl
  unfold get_meeting_density
  simp only [hne, Bool.false_eq_true, if_false, h]
  norm_num

/-- C1 witness: the amended claim instantiated on the single-240-minute-
meeting repository. -/
theorem C1_exact_240_is_heavy_witness :
    (((get_user_meetings_in_range density_boundary_db "P" (dayStartOf 0)
      (dayStartOf 0 + 1439)).map (fun m => m.duration_minutes)).sum =
        240) ∧
    (get_meeting_density density_boundary_db "P" 0).density_score = 50 ∧
    (get_meeting_density density_boundary_db "P" 0).recommendation =
      "Heavy meeting day - avoid non-essential meetings" := by
  have h : ((get_user_meetings_in_range density_boundary_db "P"
      (dayStartOf 0) (dayStartOf 0 + 1439)).map
        (fun m => m.duration_minutes)).sum = 240 := by
    unfold get_user_meetings_in_range density_boundary_db dayStartOf
    norm_num
  exact ⟨h, C1_exact_240_is_heavy density_boundary_db "P" 0 h⟩

/-!
## C10 — density metrics are not clamped
-/

/-- C10: `get_meeting_density` clamps nothing: when the day's fetched
meetings total more than 480 minutes, `free_time` is negative and
`density_score` — always exactly `total / 480 × 100` — exceeds 100; a day
with no fetched meetings is answered by the separate early-return branch
with the fixed record (0 meetings, 0 minutes, 480 free, score 0). -/
theorem C10_density_no_clamp (db : Database) (uid : String) (date : Int) :
    (get_user_meetings_in_range db uid (dayStartOf date)
        (dayStartOf date + 1439) = [] →
      get_meeting_density db uid date =
        ⟨0, 0, 480, 0, "Good day to schedule meetings"⟩) ∧
    (∀ total : Int,
      ((get_user_meetings_in_range db uid (dayStartOf date)
        (dayStartOf date + 1439)).map (fun m => m.duration_minutes)).sum =
          total →
      480 < total →
      (get_meeting_density db uid date).total_meeting_time = total ∧
      (get_meeting_density db uid date).free_time = 480 - total ∧
      (get_meeting_density db uid date).free_time < 0 ∧
      (get_meeting_density db uid date).density_score =
        (total : ℚ) / 480 * 100 ∧
      100 < (get_meeting_density db uid date).density_score) := by
  constructor
  · intro hempty
    unfold get_meeting_density
    rw [hempty]
    rfl
  · intro total h ht
    have hne : (get_user_meetings_in_range db uid (dayStartOf date)
        (dayStartOf date + 1439)).isEmpty = false := by
      cases hl : get_user_meetings_in_range db uid (dayStartOf date)
          (dayStartOf date + 1439) with
      | nil => rw [hl] at h; simp at h; omega
      | cons a t => rfl
    have hq : (480 : ℚ) < (total : Int) := by exact_mod_cast ht
    unfold get_meeting_density
    simp only [hne, Bool.false_eq_true, if_false, h]
    refine ⟨by trivial, by trivial, by omega, by trivial, ?_⟩
    rw [div_mul_eq_mul_div, lt_div_iff₀ (by norm_num : (0 : ℚ) < 480)]
    linarith

/-- C10 witness: the empty branch on the empty repository, and the
no-clamp branch on a day holding two 300-minute meetings (600 > 480). -/
theorem C10_density_no_clamp_witness :
    (get_user_meetings_in_range ([] : Database) "P" (dayStartOf 0)
        (dayStartOf 0 + 1439) = [] ∧
      get_meeting_density ([] : Database) "P" 0 =
        ⟨0, 0, 480, 0, "Good day to schedule meetings"⟩) ∧
    (((get_user_meetings_in_range
        [⟨"a", "Design", 540, 840, 300, "P", ["P"]⟩,
         ⟨"b", "Review", 850, 1150, 300, "P", ["P"]⟩] "P" (dayStartOf 0)
        (dayStartOf 0 + 1439)).map (fun m => m.duration_minutes)).sum =
          600 ∧
      (480 : Int) < 600 ∧
      (get_meeting_density
        [⟨"a", "Design", 540, 840, 300, "P", ["P"]⟩,
         ⟨"b", "Review", 850, 1150, 300, "P", ["P"]⟩] "P" 0).free_time < 0 ∧
      100 < (get_meeting_density
        [⟨"a", "Design", 540, 840, 300, "P", ["P"]⟩,
         ⟨"b", "Review", 850, 1150, 300, "P", ["P"]⟩] "P" 0).density_score) := by
  have hempty : get_user_meetings_in_range ([] : Database) "P" (dayStartOf 0)
      (dayStartOf 0 + 1439) = [] := by
    unfold get_user_meetings_in_range
    simp
  have hsum : ((get_user_meetings_in_range
      [⟨"a", "Design", 540, 840, 300, "P", ["P"]⟩,
       ⟨"b", "Review", 850, 1150, 300, "P", ["P"]⟩] "P" (dayStartOf 0)
      (dayStartOf 0 + 1439)).map (fun m => m.duration_minutes)).sum = 600 := by
    unfold get_user_meetings_in_range dayStartOf
    norm_num [List.mergeSort, List.merge]
  refine ⟨⟨hempty, (C10_density_no_clamp ([] : Database) "P" 0).1 hempty⟩,
    hsum, by norm_num, ?_, ?_⟩
  · exact ((C10_density_no_clamp _ "P" 0).2 600 hsum
      (by norm_num)).2.2.1
  · exact ((C10_density_no_clamp _ "P" 0).2 600 hsum
      (by norm_num)).2.2.2.2

/-!
## C7 — a conflict-free Monday 09:00 slot scores exactly 140
-/

/-- C7: a 30-minute slot starting 09:00 on a Monday, scored for one
participant whose repository fetch over the extended window is empty,
scores exactly 140 = 100 (start) + 20 (all available) + 15 (9–11 am)
+ 5 (Monday), with the participant listed available and nobody
conflicted. -/
theorem C7_monday_morning_scores_140 (db : Database) (P : String) (s : Int)
    (hwd : weekdayOf s = 0) (hmin : s % 1440 = 540)
    (hfetch : get_user_meetings_in_range db P (s - 120) (s + 30 + 120) = []) :
    (_score_time_slot db ⟨s, s + 30⟩ [P]).score = 140 ∧
    (_score_time_slot db ⟨s, s + 30⟩ [P]).available = [P] ∧
    (_score_time_slot db ⟨s, s + 30⟩ [P]).conflicted = [] := by
  have hconf : detect_conflicts db P s (s + 30) = [] := by
    unfold detect_conflicts
    rw [hfetch]
    rfl
  have hh : hourOf s = 9 := by unfold hourOf; omega
  have hh2 : hourOf (s + 30) = 9 := by unfold hourOf; omega
  unfold _score_time_slot score_participant_step
  simp only [List.foldl_cons, List.foldl_nil, hconf, hh, hh2, hwd]
  norm_num

/-- C7 witness: epoch Monday 09:00 (minute 540) against the empty
repository. -/
theorem C7_monday_morning_scores_140_witness :
    (weekdayOf 540 = 0 ∧ (540 : Int) % 1440 = 540 ∧
      get_user_meetings_in_range ([] : Database) "P" (540 - 120)
        (540 + 30 + 120) = []) ∧
    ((_score_time_slot ([] : Database) ⟨540, 540 + 30⟩ ["P"]).score = 140 ∧
      (_score_time_slot ([] : Database) ⟨540, 540 + 30⟩ ["P"]).available =
        ["P"] ∧
      (_score_time_slot ([] : Database) ⟨540, 540 + 30⟩ ["P"]).conflicted =
        []) := by
  have hfetch : get_user_meetings_in_range ([] : Database) "P" (540 - 120)
      (540 + 30 + 120) = [] := by
    unfold get_user_meetings_in_range
    simp
  exact ⟨⟨by decide, by decide, hfetch⟩,
    C7_monday_morning_scores_140 ([] : Database) "P" 540 (by decide)
      (by decide) hfetch⟩

/-!
## C6 — selector: positive scores, stable descending order, top 10
-/

/-- C6: whenever slot generation returns (on other windows the generator's
day-advance `TypeError` propagates, see C2), `find_optimal_slots` returns —
without error — the viable scored slots sorted stably by descending score
and truncated to 10: every returned slot scores strictly above 0, the
returned list is descending in score with at most 10 entries (so it is
empty exactly when no candidate scores above 0), and any two viable slots
in generation order with the earlier one scoring no less keep that order
in the ranking, so equal-score slots retain generation order. -/
theorem C6_selector_contract (db : Database) (participants : List String)
    (dur s e : Int) (prefs : Option SchedulingPreferences)
    (slots : List TimeSlot)
    (hgen : _generate_time_slots s e dur (prefs.getD {}) = .ok slots) :
    find_optimal_slots db participants dur s e prefs =
      .ok ((ranked_slots db participants slots).take 10) ∧
    (∀ x ∈ (ranked_slots db participants slots).take 10, 0 < x.score) ∧
    ((ranked_slots db participants slots).take 10).Pairwise
      (fun a b => b.score ≤ a.score) ∧
    ((ranked_slots db participants slots).take 10).length ≤ 10 ∧
    (∀ a b : OptimalSlotResponse,
      [a, b].Sublist (viable_scored_slots db participants slots) →
      b.score ≤ a.score →
      [a, b].Sublist (ranked_slots db participants slots)) ∧
    (viable_scored_slots db participants slots = [] →
      find_optimal_slots db participants dur s e prefs = .ok []) := by
  have htrans : ∀ a b c : OptimalSlotResponse,
      (decide (b.score ≤ a.score)) = true →
      (decide (c.score ≤ b.score)) = true →
      (decide (c.score ≤ a.score)) = true := by
    intro a b c h1 h2
    simp only [decide_eq_true_eq] at h1 h2 ⊢
    omega
  have htotal : ∀ a b : OptimalSlotResponse,
      ((decide (b.score ≤ a.score)) || (decide (a.score ≤ b.score))) = true := by
    intro a b
    simp only [Bool.or_eq_true, decide_eq_true_eq]
    omega
  have hmem_pos : ∀ x ∈ viable_scored_slots db participants slots,
      0 < x.score := by
    intro x hx
    simp only [viable_scored_slots, List.mem_filterMap] at hx
    obtain ⟨slot, hmem, hf⟩ := hx
    split at hf
    · rw [← Option.some.inj hf]
      assumption
    · exact absurd hf (by simp)
  have hfind : find_optimal_slots db participants dur s e prefs =
      .ok ((ranked_slots db participants slots).take 10) := by
    unfold find_optimal_slots
    show Except.map _ (_generate_time_slots s e dur (prefs.getD {})) = _
    rw [hgen]
    rfl
  refine ⟨hfind, ?_, ?_, ?_, ?_, ?_⟩
  · intro x hx
    have hx' : x ∈ ranked_slots db participants slots :=
      List.mem_of_mem_take hx
    unfold ranked_slots at hx'
    exact hmem_pos x (List.mem_mergeSort.mp hx')
  · have hsorted := List.sorted_mergeSort htrans htotal
      (viable_scored_slots db participants slots)
    have hsorted' : (ranked_slots db participants slots).Pairwise
        (fun a b => b.score ≤ a.score) := by
      unfold ranked_slots
      exact hsorted.imp (fun h => by simpa using h)
    exact hsorted'.sublist (List.take_sublist _ _)
  · rw [List.length_take]
    omega
  · intro a b hsub hle
    unfold ranked_slots
    exact List.pair_sublist_mergeSort htrans htotal (by simpa using hle) hsub
  · intro hempty
    rw [hfind]
    unfold ranked_slots
    rw [hempty, List.mergeSort_nil, List.take_nil]

/-- C6 witness: the selector contract instantiated on the one-slot Friday
window with an empty repository and no participants. -/
theorem C6_selector_contract_witness :
    (_generate_time_slots 5760 5761 480
        ((none : Option SchedulingPreferences).getD {}) =
      .ok [⟨6300, 6780⟩]) ∧
    (find_optimal_slots ([] : Database) [] 480 5760 5761 none =
      .ok ((ranked_slots ([] : Database) [] [⟨6300, 6780⟩]).take 10) ∧
    (∀ x ∈ (ranked_slots ([] : Database) [] [⟨6300, 6780⟩]).take 10,
      0 < x.score) ∧
    ((ranked_slots ([] : Database) [] [⟨6300, 6780⟩]).take 10).Pairwise
      (fun a b => b.score ≤ a.score) ∧
    ((ranked_slots ([] : Database) [] [⟨6300, 6780⟩]).take 10).length ≤ 10 ∧
    (∀ a b : OptimalSlotResponse,
      [a, b].Sublist (viable_scored_slots ([] : Database) [] [⟨6300, 6780⟩]) →
      b.score ≤ a.score →
      [a, b].Sublist (ranked_slots ([] : Database) [] [⟨6300, 6780⟩])) ∧
    (viable_scored_slots ([] : Database) [] [⟨6300, 6780⟩] = [] →
      find_optimal_slots ([] : Database) [] 480 5760 5761 none = .ok [])) := by
  have hgen : _generate_time_slots 5760 5761 480
      ((none : Option SchedulingPreferences).getD {}) = .ok [⟨6300, 6780⟩] := by
    rw [Option.getD_none, _generate_time_slots, generate_slots_loop]
    norm_num [weekdayOf, atTime, nextMondayStart]
    rw [generate_slots_loop]
    norm_num
    rw [generate_day_slots]
    norm_num
    rw [generate_day_slots]
    norm_num [Except.map]
  exact ⟨hgen,
    C6_selector_contract ([] : Database) [] 480 5760 5761 none
      [⟨6300, 6780⟩] hgen⟩

/-!
## C8 — suggest_meeting_alternatives (code bug)

The 7-day search window of `suggest_meeting_alternatives` always contains
a processed Monday..Thursday working day, so the generator's day-advance
`TypeError` (see C2) fires on **every** call: the function can never
return the filtered alternative list the spec describes.
-/

/-- The next Monday after `t` is a Monday. -/
theorem weekdayOf_nextMondayStart (t : Int) :
    weekdayOf (nextMondayStart t) = 0 := by
  unfold weekdayOf nextMondayStart
  split <;> omega

/-- Any invocation of the day loop on a window at least 7 days long ends
in the day-advance `TypeError`. -/
theorem generate_slots_loop_week_error (endT : Int) (psh psm peh pem : Nat)
    (dur cur : Int) (hpsh : psh < 24) (hpsm : psm < 60)
    (hwin : cur + 10080 ≤ endT) :
    generate_slots_loop endT psh psm peh pem dur cur = .error () := by
  have hnm2 : nextMondayStart cur % 1440 = 0 := nextMondayStart_emod cur
  have hnm4 : weekdayOf (nextMondayStart cur) = 0 :=
    weekdayOf_nextMondayStart cur
  rw [generate_slots_loop, dif_pos (by omega : cur < endT)]
  by_cases hw : 5 ≤ weekdayOf cur
  · rw [dif_pos hw]
    have hw' : 5 ≤ (cur / 1440) % 7 := hw
    have hb : nextMondayStart cur ≤ cur - cur % 1440 + 2 * 1440 := by
      unfold nextMondayStart
      split <;> omega
    have ham : atTime (nextMondayStart cur) psh psm < endT := by
      unfold atTime
      omega
    have hamw : weekdayOf (atTime (nextMondayStart cur) psh psm) = 0 := by
      unfold weekdayOf atTime
      unfold weekdayOf at hnm4
      omega
    rw [generate_slots_loop, dif_pos ham, dif_neg (by omega), if_neg (by omega)]
  · rw [dif_neg hw]
    by_cases h4 : weekdayOf cur = 4
    · rw [if_pos h4]
      have h4' : (cur / 1440) % 7 = 4 := h4
      have hb : nextMondayStart cur ≤ cur - cur % 1440 + 3 * 1440 := by
        unfold nextMondayStart
        split <;> omega
      have hrec : generate_slots_loop endT psh psm peh pem dur
          (nextMondayStart cur) = .error () := by
        rw [generate_slots_loop, dif_pos (by omega : nextMondayStart cur < endT),
          dif_neg (by omega), if_neg (by omega)]
      rw [hrec]
      rfl
    · rw [if_neg h4]

/-- C8: `suggest_meeting_alternatives` never returns: its fixed
`[originalStart, originalStart + 7 days)` search window always reaches a
Monday..Thursday day-advance, so the pendulum `TypeError` propagates out
of every call instead of the claimed ≤ 5 non-overlapping alternatives. -/
theorem C8_alternatives_always_raise (db : Database)
    (original_start duration_minutes : Int) (participants : List String) :
    suggest_meeting_alternatives db original_start duration_minutes
      participants = .error () := by
  unfold suggest_meeting_alternatives
  show Except.map _ (find_optimal_slots db participants duration_minutes
    original_start (original_start + 7 * 1440) none) = _
  unfold find_optimal_slots
  show Except.map _ (Except.map _ (_generate_time_slots original_start
    (original_start + 7 * 1440) duration_minutes
    ({} : SchedulingPreferences))) = _
  have hgen : _generate_time_slots original_start
      (original_start + 7 * 1440) duration_minutes
      ({} : SchedulingPreferences) = .error () := by
    unfold _generate_time_slots
    exact generate_slots_loop_week_error _ 9 0 17 0 _ _ (by norm_num)
      (by norm_num) (by omega)
  rw [hgen]
  rfl

/-!
## C9 — empty participant list still earns the all-available bonus
-/

/-- C9: scoring with no participants leaves both result lists empty yet
still grants the +20 "all participants available" bonus (`0 = 0`), so
every slot scores at least 80 (the worst case is 120 − 25 − 5 − 10); and
whenever slot generation returns a non-empty candidate list,
`find_optimal_slots` with no participants returns a non-empty ranked list
rather than an empty or error result. -/
theorem C9_no_participants_all_available (db : Database) :
    (∀ slot : TimeSlot,
      (_score_time_slot db slot []).available = [] ∧
      (_score_time_slot db slot []).conflicted = [] ∧
      80 ≤ (_score_time_slot db slot []).score) ∧
    (∀ (dur s e : Int) (prefs : Option SchedulingPreferences)
        (slots : List TimeSlot),
      _generate_time_slots s e dur (prefs.getD {}) = .ok slots →
      slots ≠ [] →
      ∃ l, find_optimal_slots db [] dur s e prefs = .ok l ∧ l ≠ []) := by
  have hpart1 : ∀ slot : TimeSlot,
      (_score_time_slot db slot []).available = [] ∧
      (_score_time_slot db slot []).conflicted = [] ∧
      80 ≤ (_score_time_slot db slot []).score := by
    intro slot
    unfold _score_time_slot
    simp only [List.foldl_nil, List.length_nil]
    refine ⟨trivial, trivial, ?_⟩
    simp only [if_true]
    split_ifs <;> simp
  refine ⟨hpart1, ?_⟩
  intro dur s e prefs slots hgen hne
  obtain ⟨a, t, rfl⟩ := List.exists_cons_of_ne_nil hne
  refine ⟨(ranked_slots db [] (a :: t)).take 10, ?_, ?_⟩
  · unfold find_optimal_slots
    show Except.map _ (_generate_time_slots s e dur (prefs.getD {})) = _
    rw [hgen]
    rfl
  · have hv : viable_scored_slots db [] (a :: t) ≠ [] := by
      unfold viable_scored_slots
      rw [List.filterMap_cons]
      have h80 := (hpart1 a).2.2
      rw [if_pos (by omega : 0 < (_score_time_slot db a []).score)]
      simp
    have hlen : (ranked_slots db [] (a :: t)).length ≠ 0 := by
      unfold ranked_slots
      rw [List.length_mergeSort]
      intro h0
      exact hv (List.eq_nil_of_length_eq_zero h0)
    intro htake
    have hl := congrArg List.length htake
    rw [List.length_take] at hl
    simp only [List.length_nil] at hl
    omega

/-- C9 witness: the Friday 00:00–00:01 window with a 480-minute duration
generates one slot, and `find_optimal_slots` with no participants returns
a non-empty list on it. -/
theorem C9_no_participants_all_available_witness :
    (_generate_time_slots 5760 5761 480
        ((none : Option SchedulingPreferences).getD {}) =
      .ok [⟨6300, 6780⟩] ∧ ([⟨6300, 6780⟩] : List TimeSlot) ≠ []) ∧
    (∃ l, find_optimal_slots ([] : Database) [] 480 5760 5761 none =
      .ok l ∧ l ≠ []) := by
  have hgen : _generate_time_slots 5760 5761 480
      ((none : Option SchedulingPreferences).getD {}) = .ok [⟨6300, 6780⟩] := by
    rw [Option.getD_none, _generate_time_slots, generate_slots_loop]
    norm_num [weekdayOf, atTime, nextMondayStart]
    rw [generate_slots_loop]
    norm_num
    rw [generate_day_slots]
    norm_num
    rw [generate_day_slots]
    norm_num [Except.map]
  exact ⟨⟨hgen, by simp⟩,
    (C9_no_participants_all_available ([] : Database)).2 480 5760 5761 none
      [⟨6300, 6780⟩] hgen (by simp)⟩

end MeetingAssistant
